import Mathlib

set_option maxRecDepth 40000

/-!
Shallow embedding of the packet-protocol layer of the `roboclaw` driver
(`src/roboclaw/roboclaw.py`) together with the checksum helpers it imports
from `roboclaw.data_manip` and the opcode constants from
`roboclaw.serial_commands`.

Bytes are modelled as `Nat` (values `< 256` where the source guarantees it);
byte strings are `List Nat`.  The injected serial stream is modelled as a
list of successive read results: each `read`/`read_until` call consumes the
next element (truncated to the requested length for `read`); an exhausted
list yields the empty read, so the empty list models a device that never
responds.  Python exceptions are modelled with `Except PyErr`.
-/

/-- Python exception kinds that the embedded code can raise. -/
inductive PyErr : Type
  | typeError       -- e.g. `struct.unpack` applied to a non-bytes value, or an unexpected keyword argument
  | valueError      -- `raise ValueError(...)` in `Roboclaw.__init__`
  | assertionError  -- failed `assert` in `Roboclaw._send`
  | structError     -- `struct.error`: value out of range / wrong buffer length
  | indexError      -- tuple index out of range
  deriving DecidableEq, Repr

/-- Equality of embedded Python outcomes is decidable, so concrete runs can
be settled by evaluation. -/
instance {ε α : Type} [DecidableEq ε] [DecidableEq α] :
    DecidableEq (Except ε α) := fun x y =>
  match x, y with
  | .ok a, .ok b =>
    if h : a = b then .isTrue (by rw [h]) else .isFalse (by simp [h])
  | .error a, .error b =>
    if h : a = b then .isTrue (by rw [h]) else .isFalse (by simp [h])
  | .ok _, .error _ => .isFalse (by simp)
  | .error _, .ok _ => .isFalse (by simp)

/-- Modelled from the spec: `crc16` of `roboclaw.data_manip` (module absent from
`src/`).  One polynomial-shift step of the CRC-16/CCITT engine: shift left,
xor with polynomial `0x1021` when the high bit was set, masked to 16 bits. -/
def crcStep (c : Nat) : Nat :=
  if c &&& 0x8000 ≠ 0 then ((c <<< 1) ^^^ 0x1021) % 65536 else (c <<< 1) % 65536

/-- Modelled from the spec: absorb one byte into the running CRC, high bit
first: xor the byte into the high half, then eight polynomial-shift steps. -/
def crcByte (c b : Nat) : Nat :=
  crcStep^[8] ((c ^^^ (b <<< 8)) % 65536)

/-- Modelled from the spec: `crc16(data) -> u16` of `roboclaw.data_manip`
(module absent from `src/`): deterministic running CRC seeded at 0,
processed byte-by-byte, high bit first. -/
def crc16 (data : List Nat) : Nat :=
  data.foldl crcByte 0

/-- The big-endian 16-bit value carried by the last two bytes of a buffer
(0 when the buffer is shorter than two bytes). -/
def trailing16 (buf : List Nat) : Nat :=
  match buf.reverse with
  | lo :: hi :: _ => hi * 256 + lo
  | _ => 0

/-- Modelled from the spec: `validate16` of `roboclaw.data_manip` (module
absent from `src/`): strips the last two bytes, recomputes the checksum over
the remainder, and reports `false` when it differs from the big-endian
trailing value (a buffer too short to carry a checksum cannot validate). -/
def validate16 (buf : List Nat) : Bool :=
  decide (2 ≤ buf.length) &&
    decide (crc16 (buf.dropLast.dropLast) = trailing16 buf)

/-- The value returned by `_recv` in `roboclaw.py`: either the payload bytes
or Python's `False`. -/
inductive RecvVal : Type
  | bytes (b : List Nat)
  | pyFalse
  deriving DecidableEq, Repr

/-- `_recv(buf)` from `roboclaw.py` lines 11-14: the buffer minus the 2-byte
checksum suffix when `validate16` accepts it, `False` otherwise. -/
def recv (buf : List Nat) : RecvVal :=
  if validate16 buf then .bytes buf.dropLast.dropLast else .pyFalse

/-- What `Roboclaw._send` can return: `True` (blanket ack seen), `False`
(retries exhausted), or the raw bytes of a read. -/
inductive SendResult : Type
  | ok
  | failed
  | data (b : List Nat)
  deriving DecidableEq, Repr

/-- Applying `_recv` to a `_send` result.  When `_send` returned `True` or
`False`, `validate16` receives a `bool` and raises a `TypeError` (no `len`);
on bytes it behaves as `recv`. -/
def recvOfSend : SendResult → Except PyErr RecvVal
  | .data b => .ok (recv b)
  | _ => .error .typeError

/-- The serial stream model: the list of results of successive reads. -/
abbrev SerialStream := List (List Nat)

/-- `serial_obj.read(n)`: up to `n` bytes from the next pending reply;
an exhausted stream models a read timeout and yields no bytes. -/
def streamRead (st : SerialStream) (n : Nat) : List Nat × SerialStream :=
  match st with
  | [] => ([], [])
  | r :: rest => (r.take n, rest)

/-- `serial_obj.read_until()`: the next line-feed-terminated record, in the
model simply the next pending reply in full. -/
def streamReadUntil (st : SerialStream) : List Nat × SerialStream :=
  match st with
  | [] => ([], [])
  | r :: rest => (r, rest)

/-- The mutable fields of a `Roboclaw` session: `_address`, `_retries`,
`packet_serial` (`roboclaw.py` lines 23-30). -/
structure Session where
  address : Int
  retries : Nat
  packetSerial : Bool
  deriving DecidableEq, Repr

/-- `Roboclaw.__init__` (`roboclaw.py` lines 23-30): raises `ValueError`
when the address is not in `range(0x80, 0x88)`; otherwise stores the fields.
(The preceding `serial_obj.close()` writes no bytes and is not modelled.) -/
def roboclawInit (address : Int) (retries : Nat) (packetSerial : Bool) :
    Except PyErr Session :=
  if 0x80 ≤ address ∧ address < 0x88 then
    .ok ⟨address, retries, packetSerial⟩
  else
    .error .valueError

/-- The two checksum bytes `bytes([checksum >> 8, checksum & 0xff])`
appended to a packet-serial frame (`roboclaw.py` line 63). -/
def crcBytes (buf : List Nat) : List Nat :=
  [crc16 buf >>> 8, crc16 buf % 256]

/-- The result of one `_send` call: the Python return value (or exception),
the frames written to the stream in order, and the remaining stream. -/
structure SendOut where
  result : Except PyErr SendResult
  writes : List (List Nat)
  stream : SerialStream
  deriving Repr, DecidableEq

/-- The `while trys:` loop of `_send` (`roboclaw.py` lines 65-77), recursing
on the remaining attempt count.  `ack = none` is the blanket-ack path
(read 1 byte, `0xFF` means success, anything else or an empty read consumes
an attempt); `ack = some 0` returns a `read_until` record at once;
`ack = some (n+1)` returns a read of `ackLen` bytes at once. -/
def sendAttempts (frame : List Nat) (ack : Option Nat) (ackLen : Nat) :
    Nat → SerialStream → SendResult × List (List Nat) × SerialStream
  | 0, st => (.failed, [], st)
  | t + 1, st =>
    match ack with
    | none =>
      match streamRead st 1 with
      | ([], st') =>
        let (r, ws, st'') := sendAttempts frame ack ackLen t st'
        (r, frame :: ws, st'')
      | (b :: _, st') =>
        if b = 0xff then (.ok, [frame], st')
        else
          let (r, ws, st'') := sendAttempts frame ack ackLen t st'
          (r, frame :: ws, st'')
    | some 0 =>
      let (resp, st') := streamReadUntil st
      (.data resp, [frame], st')
    | some (_ + 1) =>
      let (resp, st') := streamRead st ackLen
      (.data resp, [frame], st')

/-- `Roboclaw._send` (`roboclaw.py` lines 43-77): asserts the explicit
address (if any) lies in `range(0x80, 0x88)` before anything is written,
prepends the effective address byte, appends the 2-byte checksum in
packet-serial mode, then runs the attempt loop. -/
def sendRC (s : Session) (buf : List Nat) (ack : Option Nat)
    (address : Option Int) (crc : Bool) (st : SerialStream) : SendOut :=
  match address with
  | some a =>
    if 0x80 ≤ a ∧ a < 0x88 then
      let frame0 := a.toNat :: buf
      let frame := if s.packetSerial then frame0 ++ crcBytes frame0 else frame0
      let ackLen := fun n => n + (if s.packetSerial ∧ crc then 2 else 0)
      let (r, ws, st') :=
        sendAttempts frame ack (ackLen (ack.getD 0)) s.retries st
      ⟨.ok r, ws, st'⟩
    else ⟨.error .assertionError, [], st⟩
  | none =>
    let frame0 := s.address.toNat :: buf
    let frame := if s.packetSerial then frame0 ++ crcBytes frame0 else frame0
    let ackLen := fun n => n + (if s.packetSerial ∧ crc then 2 else 0)
    let (r, ws, st') :=
      sendAttempts frame ack (ackLen (ack.getD 0)) s.retries st
    ⟨.ok r, ws, st'⟩

/-! ### `struct` pack/unpack helpers -/

/-- Python `int(...)` applied to a rational: truncation toward zero. -/
def pyInt (q : ℚ) : Int :=
  if 0 ≤ q then ⌊q⌋ else ⌈q⌉

/-- `struct.pack` of one `B` (unsigned byte) field: `struct.error` when the
value is out of range. -/
def packU8 (v : Int) : Except PyErr (List Nat) :=
  if 0 ≤ v ∧ v < 256 then .ok [v.toNat] else .error .structError

/-- `struct.pack` of one `>H` (big-endian unsigned 16-bit) field. -/
def packU16 (v : Int) : Except PyErr (List Nat) :=
  if 0 ≤ v ∧ v < 65536 then .ok [v.toNat / 256, v.toNat % 256]
  else .error .structError

/-- `struct.pack` of one `>I` (big-endian unsigned 32-bit) field. -/
def packU32 (v : Int) : Except PyErr (List Nat) :=
  if 0 ≤ v ∧ v < 4294967296 then
    .ok [v.toNat / 16777216 % 256, v.toNat / 65536 % 256,
         v.toNat / 256 % 256, v.toNat % 256]
  else .error .structError

/-- A sequence of `B` fields, e.g. the format strings `'>B'` and `'>BB'`. -/
def packBytes (vs : List Int) : Except PyErr (List Nat) :=
  match vs with
  | [] => .ok []
  | v :: rest => do
    let b ← packU8 v
    let bs ← packBytes rest
    .ok (b ++ bs)

/-- The format string `'>BBH'` used by `write_eeprom`. -/
def packBBH (a b : Int) (w : Int) : Except PyErr (List Nat) := do
  let xs ← packBytes [a, b]
  let ys ← packU16 w
  .ok (xs ++ ys)

/-- A sequence of `>I` fields. -/
def packU32s (vs : List Int) : Except PyErr (List Nat) :=
  match vs with
  | [] => .ok []
  | v :: rest => do
    let w ← packU32 v
    let ws ← packU32s rest
    .ok (w ++ ws)

/-- The format strings `'>BIIII'` / `'>BIIIIIII'` used by the PID setters:
the opcode byte followed by 32-bit fields in declared order. -/
def packB_Is (op : Int) (vs : List Int) : Except PyErr (List Nat) := do
  let hd ← packBytes [op]
  let ws ← packU32s vs
  .ok (hd ++ ws)

/-- `struct.pack(fmt, *args, **kwargs)`: CPython rejects any keyword
argument with a `TypeError` before looking at the arguments. -/
def packKw (kwargs : List String) (k : Except PyErr (List Nat)) :
    Except PyErr (List Nat) :=
  if kwargs.isEmpty then k else .error .typeError

/-- Big-endian unsigned value of a byte list. -/
def beNat (bs : List Nat) : Nat :=
  bs.foldl (fun acc b => acc * 256 + b) 0

/-- Little-endian unsigned value of a byte list. -/
def leNat (bs : List Nat) : Nat :=
  beNat bs.reverse

/-- Two's-complement reading of an unsigned 32-bit value. -/
def toInt32 (n : Nat) : Int :=
  if n < 2147483648 then (n : Int) else (n : Int) - 4294967296

/-- `struct.unpack('>iB', buf)`: a big-endian signed 32-bit value and a
byte; `struct.error` unless the buffer is exactly 5 bytes. -/
def unpack_iB (b : List Nat) : Except PyErr (Int × Nat) :=
  if b.length = 5 then .ok (toInt32 (beNat (b.take 4)), b.getLast!)
  else .error .structError

/-- `struct.unpack('>B', buf)`: a 1-tuple holding one byte;
`struct.error` unless the buffer is exactly 1 byte. -/
def unpack_B (b : List Nat) : Except PyErr (List Int) :=
  match b with
  | [x] => .ok [(x : Int)]
  | _ => .error .structError

/-- `struct.unpack('iiii', buf)` with native byte order (little-endian on
the CPython platforms this driver targets): four signed 32-bit values;
`struct.error` unless the buffer is exactly 16 bytes. -/
def unpack_iiii (b : List Nat) : Except PyErr (Int × Int × Int × Int) :=
  if b.length = 16 then
    .ok (toInt32 (leNat (b.take 4)),
         toInt32 (leNat ((b.drop 4).take 4)),
         toInt32 (leNat ((b.drop 8).take 4)),
         toInt32 (leNat ((b.drop 12).take 4)))
  else .error .structError

/-- `struct.unpack('>IIIIIII', buf)`: seven big-endian unsigned 32-bit
values; `struct.error` unless the buffer is exactly 28 bytes. -/
def unpack_7I (b : List Nat) : Except PyErr (List Nat) :=
  if b.length = 28 then
    .ok ((List.range 7).map fun i => beNat ((b.drop (4 * i)).take 4))
  else .error .structError

/-- Python tuple/sequence indexing: `IndexError` when out of range. -/
def pyIndex (xs : List Int) (i : Nat) : Except PyErr Int :=
  if h : i < xs.length then .ok (xs.get ⟨i, h⟩) else .error .indexError

/-! ### Opcode constants (`roboclaw.serial_commands.Cmd`)

The module is absent from `src/`; the values are modelled from the spec's
command table as witnessed by the `# :Sends: [Address, N, ...]` comments in
`roboclaw.py` (`M1FORWARD = 0`, `SETMINMB = 2`, `SETMAXMB = 3`,
`SETMINLB = 4`, `SETMAXLB = 5`, `SETM1PID = 28`, `READM1PID = 55`,
`SETM1POSPID = 61`, `WRITEEEPROM = 253`) and by the RoboClaw command table
for the read opcodes without such a comment. -/

def cmdM1FORWARD : Int := 0
def cmdSETMINMB : Int := 2
def cmdSETMAXMB : Int := 3
def cmdSETMINLB : Int := 4
def cmdSETMAXLB : Int := 5
def cmdGETM1ENC : Int := 16
def cmdGETVERSION : Int := 21
def cmdSETM1PID : Int := 28
def cmdREADM1PID : Int := 55
def cmdSETM1POSPID : Int := 61
def cmdREADM1POSPID : Int := 63
def cmdWRITEEEPROM : Int := 253

/-! ### Typed operations -/

/-- The outcome of a typed operation: its Python return value (or the
exception it raises), the frames written, and the remaining stream. -/
structure OpOut (α : Type) where
  ret : Except PyErr α
  writes : List (List Nat)
  stream : SerialStream
  deriving Repr

/-- Lift a `SendOut` whose result is returned unchanged (the write
commands return `_send`'s own value). -/
def opOfSend (o : SendOut) : OpOut SendResult :=
  ⟨o.result, o.writes, o.stream⟩

/-- `forward_m1` (`roboclaw.py` lines 89-95):
`self._send(pack('>BB', Cmd.M1FORWARD, val), address=address)`. -/
def forward_m1 (s : Session) (val : Int) (address : Option Int)
    (st : SerialStream) : OpOut SendResult :=
  match packBytes [cmdM1FORWARD, val] with
  | .error e => ⟨.error e, [], st⟩
  | .ok payload => opOfSend (sendRC s payload none address true st)

/-- `set_min_voltage_main_battery` (`roboclaw.py` lines 105-114):
`self._send(pack('>BB', Cmd.SETMINMB, int(val / 5 + 6)), address=address)`. -/
def set_min_voltage_main_battery (s : Session) (val : ℚ) (address : Option Int)
    (st : SerialStream) : OpOut SendResult :=
  match packBytes [cmdSETMINMB, pyInt (val / 5 + 6)] with
  | .error e => ⟨.error e, [], st⟩
  | .ok payload => opOfSend (sendRC s payload none address true st)

/-- `set_max_voltage_main_battery` (`roboclaw.py` lines 116-125):
`self._send(pack('>BB', Cmd.SETMAXMB, int(val / 5.12)), address=address)`. -/
def set_max_voltage_main_battery (s : Session) (val : ℚ) (address : Option Int)
    (st : SerialStream) : OpOut SendResult :=
  match packBytes [cmdSETMAXMB, pyInt (val / 5.12)] with
  | .error e => ⟨.error e, [], st⟩
  | .ok payload => opOfSend (sendRC s payload none address true st)

/-- `read_encoder_m1` (`roboclaw.py` lines 207-221):
`unpack('>iB', _recv(self._send(pack('>B', Cmd.GETM1ENC), address=address, ack=5)))`.
`unpack` applied to the `False` that `_recv` yields on a failed validation
raises a `TypeError`. -/
def read_encoder_m1 (s : Session) (address : Option Int) (st : SerialStream) :
    OpOut (Int × Nat) :=
  match packBytes [cmdGETM1ENC] with
  | .error e => ⟨.error e, [], st⟩
  | .ok payload =>
    let o := sendRC s payload (some 5) address true st
    match o.result with
    | .error e => ⟨.error e, o.writes, o.stream⟩
    | .ok r =>
      match recvOfSend r with
      | .error e => ⟨.error e, o.writes, o.stream⟩
      | .ok .pyFalse => ⟨.error .typeError, o.writes, o.stream⟩
      | .ok (.bytes b) => ⟨unpack_iB b, o.writes, o.stream⟩

/-- `read_version` (`roboclaw.py` lines 262-272): an `ack=0` send, then
`''.join(chr(c) for c in version[:-2])` when `_recv` yielded truthy bytes,
else the string `'Unknown. Read command failed'`. -/
def read_version (s : Session) (address : Option Int) (st : SerialStream) :
    OpOut String :=
  match packBytes [cmdGETVERSION] with
  | .error e => ⟨.error e, [], st⟩
  | .ok payload =>
    let o := sendRC s payload (some 0) address true st
    match o.result with
    | .error e => ⟨.error e, o.writes, o.stream⟩
    | .ok r =>
      match recvOfSend r with
      | .error e => ⟨.error e, o.writes, o.stream⟩
      | .ok .pyFalse =>
        ⟨.ok "Unknown. Read command failed", o.writes, o.stream⟩
      | .ok (.bytes []) =>  -- an empty `bytes` is falsy as well
        ⟨.ok "Unknown. Read command failed", o.writes, o.stream⟩
      | .ok (.bytes b) =>
        ⟨.ok (String.mk ((b.dropLast.dropLast).map Char.ofNat)),
         o.writes, o.stream⟩

/-- `write_eeprom` (`roboclaw.py` lines 939-946):
`val = unpack('>B', _recv(self._send(pack('>BBH', Cmd.WRITEEEPROM, ee_address, ee_word), address=address, ack=1, crc=0)))`
followed by `if val[1] == 0xaa: return True` / `return False`. -/
def write_eeprom (s : Session) (eeAddress eeWord : Int) (address : Option Int)
    (st : SerialStream) : OpOut Bool :=
  match packBBH cmdWRITEEEPROM eeAddress eeWord with
  | .error e => ⟨.error e, [], st⟩
  | .ok payload =>
    let o := sendRC s payload (some 1) address false st
    match o.result with
    | .error e => ⟨.error e, o.writes, o.stream⟩
    | .ok r =>
      match recvOfSend r with
      | .error e => ⟨.error e, o.writes, o.stream⟩
      | .ok .pyFalse => ⟨.error .typeError, o.writes, o.stream⟩
      | .ok (.bytes b) =>
        match unpack_B b with
        | .error e => ⟨.error e, o.writes, o.stream⟩
        | .ok val =>
          match pyIndex val 1 with
          | .error e => ⟨.error e, o.writes, o.stream⟩
          | .ok x => ⟨.ok (decide (x = 0xaa)), o.writes, o.stream⟩

/-- `set_m1_velocity_pid` (`roboclaw.py` lines 325-336):
`self._send(pack('>BIIII', Cmd.SETM1PID, d * 65536, p * 65536, i * 65536, qpps), address=address)`. -/
def set_m1_velocity_pid (s : Session) (p i d qpps : Int)
    (address : Option Int) (st : SerialStream) : OpOut SendResult :=
  match packB_Is cmdSETM1PID [d * 65536, p * 65536, i * 65536, qpps] with
  | .error e => ⟨.error e, [], st⟩
  | .ok payload => opOfSend (sendRC s payload none address true st)

/-- `set_m1_position_pid` (`roboclaw.py` lines 617-624):
`self._send(pack('>BIIIIIII', Cmd.SETM1POSPID, kd * 1024, kp * 1024, ki * 1024, kimax, deadzone, minimum, maximum), address=address)`. -/
def set_m1_position_pid (s : Session)
    (kp ki kd kimax deadzone minimum maximum : Int)
    (address : Option Int) (st : SerialStream) : OpOut SendResult :=
  match packB_Is cmdSETM1POSPID
      [kd * 1024, kp * 1024, ki * 1024, kimax, deadzone, minimum, maximum] with
  | .error e => ⟨.error e, [], st⟩
  | .ok payload => opOfSend (sendRC s payload none address true st)

/-- `read_m1_velocity_pid` (`roboclaw.py` lines 565-574):
`data = unpack('iiii', _recv(self._send(pack('>B', Cmd.READM1PID), address=address, ack=16)))`,
then `(data[0], data[1] / 65536.0, data[2] / 65536.0, data[3] / 65536.0)`
(the `if data:` guard is always taken: a 4-tuple is truthy). -/
def read_m1_velocity_pid (s : Session) (address : Option Int)
    (st : SerialStream) : OpOut (Int × ℚ × ℚ × ℚ) :=
  match packBytes [cmdREADM1PID] with
  | .error e => ⟨.error e, [], st⟩
  | .ok payload =>
    let o := sendRC s payload (some 16) address true st
    match o.result with
    | .error e => ⟨.error e, o.writes, o.stream⟩
    | .ok r =>
      match recvOfSend r with
      | .error e => ⟨.error e, o.writes, o.stream⟩
      | .ok .pyFalse => ⟨.error .typeError, o.writes, o.stream⟩
      | .ok (.bytes b) =>
        match unpack_iiii b with
        | .error e => ⟨.error e, o.writes, o.stream⟩
        | .ok (d0, d1, d2, d3) =>
          ⟨.ok (d0, (d1 : ℚ) / 65536, (d2 : ℚ) / 65536, (d3 : ℚ) / 65536),
           o.writes, o.stream⟩

/-- `read_m1_position_pid` (`roboclaw.py` lines 633-641):
`data = unpack('>IIIIIII', _recv(self._send(pack('>B', Cmd.READM1POSPID), address=address, ack=28)))`,
then `(data[0], data[1] / 1024.0, data[2] / 1024.0, data[3] / 1024.0)`. -/
def read_m1_position_pid (s : Session) (address : Option Int)
    (st : SerialStream) : OpOut (Nat × ℚ × ℚ × ℚ) :=
  match packBytes [cmdREADM1POSPID] with
  | .error e => ⟨.error e, [], st⟩
  | .ok payload =>
    let o := sendRC s payload (some 28) address true st
    match o.result with
    | .error e => ⟨.error e, o.writes, o.stream⟩
    | .ok r =>
      match recvOfSend r with
      | .error e => ⟨.error e, o.writes, o.stream⟩
      | .ok .pyFalse => ⟨.error .typeError, o.writes, o.stream⟩
      | .ok (.bytes b) =>
        match unpack_7I b with
        | .error e => ⟨.error e, o.writes, o.stream⟩
        | .ok [d0, d1, d2, d3, _, _, _] =>
          ⟨.ok (d0, (d1 : ℚ) / 1024, (d2 : ℚ) / 1024, (d3 : ℚ) / 1024),
           o.writes, o.stream⟩
        | .ok _ => ⟨.error .indexError, o.writes, o.stream⟩

/-- `set_min_voltage_logic_battery` (`roboclaw.py` lines 300-311):
`self._send(pack('>BB', Cmd.SETMINLB, int(val / 5 + 6), address=address))` —
the `address` keyword is passed to `struct.pack`, not to `_send`. -/
def set_min_voltage_logic_battery (s : Session) (val : ℚ)
    (_address : Option Int) (st : SerialStream) : OpOut SendResult :=
  match packKw ["address"] (packBytes [cmdSETMINLB, pyInt (val / 5 + 6)]) with
  | .error e => ⟨.error e, [], st⟩
  | .ok payload => opOfSend (sendRC s payload none none true st)

/-- `set_max_voltage_logic_battery` (`roboclaw.py` lines 313-323):
`self._send(pack('>BB', Cmd.SETMAXLB, int(val / 5.12), address=address))` —
the `address` keyword is passed to `struct.pack`, not to `_send`. -/
def set_max_voltage_logic_battery (s : Session) (val : ℚ)
    (_address : Option Int) (st : SerialStream) : OpOut SendResult :=
  match packKw ["address"] (packBytes [cmdSETMAXLB, pyInt (val / 5.12)]) with
  | .error e => ⟨.error e, [], st⟩
  | .ok payload => opOfSend (sendRC s payload none none true st)

/-- The session created by `Roboclaw(serial_obj)` with all defaults:
address `0x80`, 3 retries, packet-serial mode. -/
def defaultSession : Session := ⟨0x80, 3, true⟩

/-- A device reply payload for `read_m1_velocity_pid`: in the native
little-endian field layout of `unpack('iiii', ...)` this carries the raw
register values `P = 65536`, `I = 131072`, `D = 196608`, `QPPS = 44000`. -/
def velPidPayload : List Nat :=
  [0, 0, 1, 0, 0, 0, 2, 0, 0, 0, 3, 0, 0xE0, 0xAB, 0, 0]

/-- A device reply payload for `read_m1_position_pid`: in the big-endian
field layout of `unpack('>IIIIIII', ...)` this carries the raw register
values `P = 1024`, `I = 2048`, `D = 3072`, `MaxI = 55`, `Deadzone = 0`,
`MinPos = 0`, `MaxPos = 0`. -/
def posPidPayload : List Nat :=
  [0, 0, 4, 0, 0, 0, 8, 0, 0, 0, 12, 0, 0, 0, 0, 55,
   0, 0, 0, 0, 0, 0, 0, 0, 0, 0, 0, 0]

/-- A version-string payload: the ASCII bytes of `"MCP"` followed by the
line-feed and null terminator. -/
def verPayload : List Nat := [77, 67, 80, 10, 0]

/-! ### Helper lemmas -/

lemma crcStep_lt (c : Nat) : crcStep c < 65536 := by
  unfold crcStep
  split <;> exact Nat.mod_lt _ (by norm_num)

lemma crcByte_lt (c b : Nat) : crcByte c b < 65536 := by
  unfold crcByte
  rw [show (8 : Nat) = 7 + 1 from rfl, Function.iterate_succ_apply']
  exact crcStep_lt _

lemma foldl_crcByte_lt (l : List Nat) :
    ∀ c : Nat, c < 65536 → l.foldl crcByte c < 65536 := by
  induction l with
  | nil => intro c h; simpa using h
  | cons a l ih =>
    intro c _
    simpa using ih (crcByte c a) (crcByte_lt c a)

lemma crc16_lt (l : List Nat) : crc16 l < 65536 :=
  foldl_crcByte_lt l 0 (by norm_num)

lemma dropLast2_append (P : List Nat) (a b : Nat) :
    ((P ++ [a, b]).dropLast).dropLast = P := by
  have h : P ++ [a, b] = (P ++ [a]) ++ [b] := by simp
  rw [h, List.dropLast_concat, List.dropLast_concat]

lemma trailing16_append (P : List Nat) (a b : Nat) :
    trailing16 (P ++ [a, b]) = a * 256 + b := by
  have h : (P ++ [a, b]).reverse = b :: a :: P.reverse := by simp
  unfold trailing16
  rw [h]

lemma shiftRight8_mul_add_mod (c : Nat) : (c >>> 8) * 256 + c % 256 = c := by
  rw [Nat.shiftRight_eq_div_pow]
  have h := Nat.div_add_mod c 256
  omega

lemma validate16_append_crc (P : List Nat) :
    validate16 (P ++ crcBytes P) = true := by
  simp only [validate16, crcBytes, dropLast2_append, trailing16_append,
    Bool.and_eq_true, decide_eq_true_eq]
  refine ⟨by simp, ?_⟩
  exact (shiftRight8_mul_add_mod (crc16 P)).symm

lemma recv_append_crc (P : List Nat) :
    recv (P ++ crcBytes P) = .bytes P := by
  unfold recv
  rw [validate16_append_crc]
  simp only [if_true, crcBytes, dropLast2_append]

lemma mem_sendAttempts_writes (frame : List Nat) (ack : Option Nat)
    (ackLen : Nat) :
    ∀ (t : Nat) (st : SerialStream) (w : List Nat),
      w ∈ (sendAttempts frame ack ackLen t st).2.1 → w = frame := by
  intro t
  induction t with
  | zero => intro st w h; simp [sendAttempts] at h
  | succ t ih =>
    intro st w h
    match hack : ack with
    | none =>
      rw [sendAttempts] at h
      rcases hr : streamRead st 1 with ⟨resp, st'⟩
      rw [hr] at h
      match resp with
      | [] =>
        simp only [List.mem_cons] at h
        rcases h with h | h
        · exact h
        · exact ih st' w h
      | b :: rest =>
        by_cases hb : b = 0xff
        · simp only [hb, if_true, List.mem_singleton] at h
          exact h
        · simp only [hb, if_false, List.mem_cons] at h
          rcases h with h | h
          · exact h
          · exact ih st' w h
    | some 0 =>
      rw [sendAttempts] at h
      simp only [List.mem_singleton] at h
      exact h
    | some (n + 1) =>
      rw [sendAttempts] at h
      simp only [List.mem_singleton] at h
      exact h

lemma sendAttempts_dead (frame : List Nat) (ackLen : Nat) :
    ∀ t : Nat, sendAttempts frame none ackLen t [] =
      (.failed, List.replicate t frame, []) := by
  intro t
  induction t with
  | zero => rfl
  | succ t ih => rw [sendAttempts, List.replicate_succ]; simp [streamRead, ih]

lemma sendAttempts_readUntil (frame : List Nat) (len t : Nat) (V : List Nat)
    (rest : SerialStream) :
    sendAttempts frame (some 0) len (t + 1) (V :: rest) =
      (.data V, [frame], rest) := rfl

lemma sendRC_readUntil (s : Session) (buf : List Nat) (c : Bool) (V : List Nat)
    (rest : SerialStream) (t : Nat) (hr : s.retries = t + 1) :
    sendRC s buf (some 0) none c (V :: rest) =
      ⟨.ok (.data V),
       [if s.packetSerial then
          (s.address.toNat :: buf) ++ crcBytes (s.address.toNat :: buf)
        else s.address.toNat :: buf], rest⟩ := by
  simp only [sendRC, hr, sendAttempts_readUntil]

lemma sendAttempts_readUntil_nil (frame : List Nat) (len t : Nat) :
    sendAttempts frame (some 0) len (t + 1) [] = (.data [], [frame], []) := rfl

lemma sendRC_readUntil_nil (s : Session) (buf : List Nat) (c : Bool) (t : Nat)
    (hr : s.retries = t + 1) :
    sendRC s buf (some 0) none c [] =
      ⟨.ok (.data []),
       [if s.packetSerial then
          (s.address.toNat :: buf) ++ crcBytes (s.address.toNat :: buf)
        else s.address.toNat :: buf], []⟩ := by
  simp only [sendRC, hr, sendAttempts_readUntil_nil]

lemma mem_sendRC_writes_none (s : Session) (buf : List Nat) (ack : Option Nat)
    (c : Bool) (st : SerialStream) (hp : s.packetSerial = true) :
    ∀ w ∈ (sendRC s buf ack none c st).writes,
      w = (s.address.toNat :: buf) ++ crcBytes (s.address.toNat :: buf) := by
  intro w hw
  simp only [sendRC, hp, if_true] at hw
  rcases hs : sendAttempts
      ((s.address.toNat :: buf) ++ crcBytes (s.address.toNat :: buf)) ack
      ((ack.getD 0) + (if True ∧ c then 2 else 0)) s.retries st with ⟨r, ws, st'⟩
  rw [hs] at hw
  exact mem_sendAttempts_writes _ _ _ _ _ w (by rw [hs]; exact hw)

lemma mem_sendRC_writes_some (s : Session) (buf : List Nat) (ack : Option Nat)
    (a : Int) (c : Bool) (st : SerialStream) (hp : s.packetSerial = true)
    (h1 : 0x80 ≤ a) (h2 : a < 0x88) :
    ∀ w ∈ (sendRC s buf ack (some a) c st).writes,
      w = (a.toNat :: buf) ++ crcBytes (a.toNat :: buf) := by
  intro w hw
  have hcond : (0x80 ≤ a ∧ a < 0x88) = True := eq_true ⟨h1, h2⟩
  simp only [sendRC, hcond, if_true, hp] at hw
  rcases hs : sendAttempts ((a.toNat :: buf) ++ crcBytes (a.toNat :: buf)) ack
      ((ack.getD 0) + (if True ∧ c then 2 else 0)) s.retries st with ⟨r, ws, st'⟩
  rw [hs] at hw
  exact mem_sendAttempts_writes _ _ _ _ _ w (by rw [hs]; exact hw)

/-! ### Claim theorems -/

/-- Claim C2: appending the 2-byte big-endian 16-bit checksum of a payload
`P` to `P` and validating the result succeeds and returns exactly `P`:
`validate16` accepts the extended buffer and `_recv` strips the checksum
suffix, so `validate(encode_with_checksum(P)) == (true, P)`. -/
theorem checksum_roundtrip_validate (P : List Nat) :
    validate16 (P ++ crcBytes P) = true ∧ recv (P ++ crcBytes P) = .bytes P :=
  ⟨validate16_append_crc P, recv_append_crc P⟩

/-- Claim C1: contrary to the claim, `read_encoder_m1` does not return a
tagged result on a communication failure.  With a device that never
responds (its reads yield no bytes), and likewise with a 7-byte reply whose
trailing checksum does not match, `_recv` yields `False` and the
unconditional `unpack('>iB', ...)` raises a `TypeError` instead of
returning a failure value. -/
theorem read_typed_raises_on_comm_failure :
    (read_encoder_m1 defaultSession none []).ret = .error .typeError ∧
    (read_encoder_m1 defaultSession none [[1, 2, 3, 4, 5, 6, 7]]).ret =
      .error .typeError := by
  exact ⟨by decide, by decide⟩

/-- Claim C5: contrary to the claim, `write_eeprom` can never report
success or failure.  The `crc=0` read fetches a single byte, which can
never pass `validate16`, so `_recv` yields `False` and
`unpack('>B', False)` raises a `TypeError` — even when the device answers
with the sentinel `0xAA`.  Moreover, had the unpack succeeded, the code
indexes `val[1]` of the 1-tuple, an `IndexError`, so the `0xAA`
comparison is unreachable. -/
theorem write_eeprom_always_raises :
    (write_eeprom defaultSession 1 2 none [[0xaa]]).ret = .error .typeError ∧
    (write_eeprom defaultSession 1 2 none [[0xff]]).ret = .error .typeError ∧
    unpack_B [0xaa] = .ok [0xaa] ∧
    pyIndex [(0xaa : Int)] 1 = .error .indexError := by
  exact ⟨by decide, by decide, by decide, by decide⟩

/-- Claim C10: for every input value and every address argument, the
operations `set_min_voltage_logic_battery` and
`set_max_voltage_logic_battery` raise a `TypeError` before any bytes are
written, because each passes the keyword argument `address` to
`struct.pack` instead of to `_send`. -/
theorem logic_battery_setters_typeerror (s : Session) (v : ℚ)
    (a : Option Int) (st : SerialStream) :
    set_min_voltage_logic_battery s v a st = ⟨.error .typeError, [], st⟩ ∧
    set_max_voltage_logic_battery s v a st = ⟨.error .typeError, [], st⟩ :=
  ⟨rfl, rfl⟩

/-- Claim C3: `forward_m1(32)` at the default address `0x80` yields exactly
the pre-checksum bytes `[0x80, 0x00, 0x20]` followed by their 2-byte
checksum, a reply byte `0xFF` yields success, and in general every
packet-mode frame sent with an explicit address is
`[address][payload bytes][checksum_hi][checksum_lo]` with the checksum
computed over the address and payload bytes. -/
theorem frame_encoding_forward_m1 :
    ((forward_m1 defaultSession 32 none [[0xff]]).writes =
        [[0x80, 0x00, 0x20] ++ crcBytes [0x80, 0x00, 0x20]] ∧
     (forward_m1 defaultSession 32 none [[0xff]]).ret = .ok .ok) ∧
    (∀ (s : Session) (buf : List Nat) (ack : Option Nat) (a : Int) (c : Bool)
       (st : SerialStream),
       s.packetSerial = true → 0x80 ≤ a → a < 0x88 →
       ∀ w ∈ (sendRC s buf ack (some a) c st).writes,
         w = (a.toNat :: buf) ++ crcBytes (a.toNat :: buf)) := by
  refine ⟨⟨by decide, by decide⟩, ?_⟩
  intro s buf ack a c st hp h1 h2
  exact mem_sendRC_writes_some s buf ack a c st hp h1 h2

/-- Witness for C3: the general frame-shape clause applied at the concrete
address `0x84` with payload `[0, 32]` on a silent stream. -/
theorem frame_encoding_forward_m1_witness :
    defaultSession.packetSerial = true ∧ (0x80 : Int) ≤ 0x84 ∧
    (0x84 : Int) < 0x88 ∧
    ∀ w ∈ (sendRC defaultSession [0, 32] none (some 0x84) true []).writes,
      w = ((0x84 : Int).toNat :: [0, 32]) ++
          crcBytes ((0x84 : Int).toNat :: [0, 32]) :=
  ⟨by decide, by decide, by decide,
   frame_encoding_forward_m1.2 defaultSession [0, 32] none 0x84 true []
     (by decide) (by decide) (by decide)⟩

/-- Counterexample to claim C4: with the fixed-width response shape
(`ack=5`, as used by `read_encoder_m1`) and a stream that never responds,
`_send` writes the frame once — not `retries = 3` times — and returns the
raw empty read rather than the tagged failure `False`. -/
theorem retry_exhaustion_counterexample :
    defaultSession.retries = 3 ∧
    ¬((sendRC defaultSession [16] (some 5) none true []).writes.length =
        defaultSession.retries) ∧
    (sendRC defaultSession [16] (some 5) none true []).result ≠
      .ok .failed := by
  exact ⟨by decide, by decide, by decide⟩

/-- Claim C4 as amended: only the blanket-ack shape retries.  On a stream
that never responds, a blanket-ack `_send` writes the full frame exactly
`retries` times and then returns the tagged failure `False`; a non-`0xFF`
one-byte reply likewise consumes an attempt and triggers a retry; the
fixed-width and read-until-terminator shapes write the frame once and
immediately return the raw (empty) read. -/
theorem retry_discipline_by_shape :
    (∀ (s : Session) (buf : List Nat) (c : Bool),
       (sendRC s buf none none c []).result = .ok .failed ∧
       (sendRC s buf none none c []).writes.length = s.retries) ∧
    (∀ (frame : List Nat) (len t : Nat) (b : Nat) (rest : SerialStream),
       b ≠ 0xff →
       sendAttempts frame none len (t + 1) ([b] :: rest) =
         ((sendAttempts frame none len t rest).1,
          frame :: (sendAttempts frame none len t rest).2.1,
          (sendAttempts frame none len t rest).2.2)) ∧
    (∀ (s : Session) (buf : List Nat) (n : Nat) (c : Bool) (t : Nat),
       s.retries = t + 1 →
       (sendRC s buf (some (n + 1)) none c []).result = .ok (.data []) ∧
       (sendRC s buf (some (n + 1)) none c []).writes.length = 1) ∧
    (∀ (s : Session) (buf : List Nat) (c : Bool) (t : Nat),
       s.retries = t + 1 →
       (sendRC s buf (some 0) none c []).result = .ok (.data []) ∧
       (sendRC s buf (some 0) none c []).writes.length = 1) := by
  refine ⟨?_, ?_, ?_, ?_⟩
  · intro s buf c
    refine ⟨?_, ?_⟩ <;>
      simp only [sendRC, sendAttempts_dead, List.length_replicate]
  · intro frame len t b rest hb
    rcases h : sendAttempts frame none len t rest with ⟨r, ws, st'⟩
    simp [sendAttempts, streamRead, hb, h]
  · intro s buf n c t hr
    refine ⟨?_, ?_⟩ <;> simp [sendRC, hr, sendAttempts, streamRead]
  · intro s buf c t hr
    refine ⟨?_, ?_⟩ <;> simp [sendRC_readUntil_nil s buf c t hr]

/-- Witness for C4 (amended): the retrying and non-retrying clauses
instantiated at concrete inputs. -/
theorem retry_discipline_by_shape_witness :
    ((sendRC defaultSession [16] none none true []).result = .ok .failed ∧
     (sendRC defaultSession [16] none none true []).writes.length =
       defaultSession.retries) ∧
    ((0 : Nat) ≠ 0xff ∧
     sendAttempts [1] none 0 1 [[0]] =
       ((sendAttempts [1] none 0 0 []).1,
        [1] :: (sendAttempts [1] none 0 0 []).2.1,
        (sendAttempts [1] none 0 0 []).2.2)) ∧
    (defaultSession.retries = 2 + 1 ∧
     (sendRC defaultSession [16] (some 5) none true []).writes.length = 1) ∧
    (defaultSession.retries = 2 + 1 ∧
     (sendRC defaultSession [21] (some 0) none true []).writes.length = 1) :=
  ⟨retry_discipline_by_shape.1 defaultSession [16] true,
   ⟨by decide, retry_discipline_by_shape.2.1 [1] 0 0 0 [] (by decide)⟩,
   ⟨by decide,
    (retry_discipline_by_shape.2.2.1 defaultSession [16] 4 true 2 rfl).2⟩,
   ⟨by decide,
    (retry_discipline_by_shape.2.2.2 defaultSession [21] true 2 rfl).2⟩⟩

/-- Counterexample to claim C6: the setters truncate with Python `int()`
rather than rounding.  At 8 volts the minimum setter packs the payload
byte `int(8/5 + 6) = 7` while `round(8/5 + 6) = 8`; at 9 volts the maximum
setter packs `int(9/5.12) = 1` while `round(9/5.12) = 2`. -/
theorem voltage_scaling_round_counterexample :
    (set_min_voltage_main_battery defaultSession 8 none [[0xff]]).writes =
      [[0x80, 2, 7] ++ crcBytes [0x80, 2, 7]] ∧
    round ((8 : ℚ) / 5 + 6) = 8 ∧
    (set_max_voltage_main_battery defaultSession 9 none [[0xff]]).writes =
      [[0x80, 3, 1] ++ crcBytes [0x80, 3, 1]] ∧
    round ((9 : ℚ) / 5.12) = 2 := by
  refine ⟨?_, by norm_num [round_eq], ?_, by norm_num [round_eq]⟩
  · have h7 : pyInt ((8 : ℚ) / 5 + 6) = 7 := by norm_num [pyInt]
    unfold set_min_voltage_main_battery
    rw [h7]
    decide
  · have h1 : pyInt ((9 : ℚ) / 5.12) = 1 := by norm_num [pyInt]
    unfold set_max_voltage_main_battery
    rw [h1]
    decide

/-- Claim C6 as amended: for every voltage in `[6, 34]`, the minimum
setter packs the single payload byte `int(volts/5 + 6)` and the maximum
setter packs `int(volts/5.12)`, where `int` is Python truncation toward
zero (the floor, on this nonnegative range) — not `round`. -/
theorem voltage_scaling_truncation (s : Session) (v : ℚ) (st : SerialStream)
    (hp : s.packetSerial = true) (hv1 : 6 ≤ v) (hv2 : v ≤ 34) :
    (∀ w ∈ (set_min_voltage_main_battery s v none st).writes,
       w = (s.address.toNat :: [2, (pyInt (v / 5 + 6)).toNat]) ++
           crcBytes (s.address.toNat :: [2, (pyInt (v / 5 + 6)).toNat])) ∧
    (∀ w ∈ (set_max_voltage_main_battery s v none st).writes,
       w = (s.address.toNat :: [3, (pyInt (v / 5.12)).toNat]) ++
           crcBytes (s.address.toNat :: [3, (pyInt (v / 5.12)).toNat])) := by
  constructor
  · have hq1 : (0 : ℚ) ≤ v / 5 + 6 := by linarith
    have hq2 : v / 5 + 6 < 256 := by linarith
    have hfl : pyInt (v / 5 + 6) = ⌊v / 5 + 6⌋ := by unfold pyInt; rw [if_pos hq1]
    have hlo : 0 ≤ pyInt (v / 5 + 6) := by
      rw [hfl]; exact Int.floor_nonneg.mpr hq1
    have hhi : pyInt (v / 5 + 6) < 256 := by
      rw [hfl]; exact Int.floor_lt.mpr (by exact_mod_cast hq2)
    have hpack : packBytes [cmdSETMINMB, pyInt (v / 5 + 6)] =
        .ok [2, (pyInt (v / 5 + 6)).toNat] := by
      norm_num [packBytes, packU8, cmdSETMINMB, hlo, hhi, bind, Except.bind]
      decide
    unfold set_min_voltage_main_battery
    simp only [hpack]
    exact mem_sendRC_writes_none s _ none true st hp
  · have hq1 : (0 : ℚ) ≤ v / 5.12 := div_nonneg (by linarith) (by norm_num)
    have hq2 : v / 5.12 < 256 := by
      rw [div_lt_iff₀ (by norm_num : (0 : ℚ) < 5.12)]; linarith
    have hfl : pyInt (v / 5.12) = ⌊v / 5.12⌋ := by unfold pyInt; rw [if_pos hq1]
    have hlo : 0 ≤ pyInt (v / 5.12) := by
      rw [hfl]; exact Int.floor_nonneg.mpr hq1
    have hhi : pyInt (v / 5.12) < 256 := by
      rw [hfl]; exact Int.floor_lt.mpr (by exact_mod_cast hq2)
    have hcond : (0 ≤ pyInt (v / 5.12) ∧ pyInt (v / 5.12) < 256) = True :=
      eq_true ⟨hlo, hhi⟩
    have hpack : packBytes [cmdSETMAXMB, pyInt (v / 5.12)] =
        .ok [3, (pyInt (v / 5.12)).toNat] := by
      simp only [packBytes, packU8, cmdSETMAXMB, hcond, if_true, bind,
        Except.bind]
      norm_num
      decide
    unfold set_max_voltage_main_battery
    simp only [hpack]
    exact mem_sendRC_writes_none s _ none true st hp

/-- Witness for C6 (amended): both scaling clauses applied at 8 volts. -/
theorem voltage_scaling_truncation_witness :
    defaultSession.packetSerial = true ∧ (6 : ℚ) ≤ 8 ∧ (8 : ℚ) ≤ 34 ∧
    (∀ w ∈ (set_min_voltage_main_battery defaultSession 8 none
              [[0xff]]).writes,
       w = (defaultSession.address.toNat ::
              [2, (pyInt ((8 : ℚ) / 5 + 6)).toNat]) ++
           crcBytes (defaultSession.address.toNat ::
              [2, (pyInt ((8 : ℚ) / 5 + 6)).toNat])) ∧
    (∀ w ∈ (set_max_voltage_main_battery defaultSession 8 none
              [[0xff]]).writes,
       w = (defaultSession.address.toNat ::
              [3, (pyInt ((8 : ℚ) / 5.12)).toNat]) ++
           crcBytes (defaultSession.address.toNat ::
              [3, (pyInt ((8 : ℚ) / 5.12)).toNat])) :=
  ⟨rfl, by norm_num, by norm_num,
   (voltage_scaling_truncation defaultSession 8 [[0xff]] rfl (by norm_num)
      (by norm_num)).1,
   (voltage_scaling_truncation defaultSession 8 [[0xff]] rfl (by norm_num)
      (by norm_num)).2⟩

/-- Claim C7: contrary to the claim, the read-backs do not divide exactly
the P, I, D fields.  `read_m1_velocity_pid` leaves the first unpacked
field (P) unscaled and divides the fourth (QPPS) by 65536: raw registers
`(P, I, D, QPPS) = (65536, 131072, 196608, 44000)` decode to
`(65536, 2, 3, 44000/65536)` instead of `(1, 2, 3, 44000)`.  Likewise
`read_m1_position_pid` leaves P unscaled and divides MaxI by 1024: raw
`(P, I, D, MaxI) = (1024, 2048, 3072, 55)` decodes to
`(1024, 2, 3, 55/1024)` instead of `(1, 2, 3, ...)`. -/
theorem pid_readback_scales_wrong_fields :
    (read_m1_velocity_pid defaultSession none
        [velPidPayload ++ crcBytes velPidPayload]).ret =
      .ok (65536, 2, 3, (44000 : ℚ) / 65536) ∧
    (read_m1_position_pid defaultSession none
        [posPidPayload ++ crcBytes posPidPayload]).ret =
      .ok (1024, 2, 3, (55 : ℚ) / 1024) := by
  constructor
  · have hsend : sendRC defaultSession [55] (some 16) none true
        [velPidPayload ++ crcBytes velPidPayload] =
        ⟨.ok (.data (velPidPayload ++ crcBytes velPidPayload)),
         [[0x80, 55] ++ crcBytes [0x80, 55]], []⟩ := by decide
    have hrecv : recvOfSend (.data (velPidPayload ++ crcBytes velPidPayload)) =
        .ok (.bytes velPidPayload) := by
      simp only [recvOfSend, recv_append_crc]
    have hunpack : unpack_iiii velPidPayload =
        .ok (65536, 131072, 196608, 44000) := by decide
    unfold read_m1_velocity_pid
    rw [(by decide : packBytes [cmdREADM1PID] = Except.ok [55])]
    simp only [hsend, hrecv, hunpack]
    norm_num
  · have hsend : sendRC defaultSession [63] (some 28) none true
        [posPidPayload ++ crcBytes posPidPayload] =
        ⟨.ok (.data (posPidPayload ++ crcBytes posPidPayload)),
         [[0x80, 63] ++ crcBytes [0x80, 63]], []⟩ := by decide
    have hrecv : recvOfSend (.data (posPidPayload ++ crcBytes posPidPayload)) =
        .ok (.bytes posPidPayload) := by
      simp only [recvOfSend, recv_append_crc]
    have hunpack : unpack_7I posPidPayload =
        .ok [1024, 2048, 3072, 55, 0, 0, 0] := by decide
    unfold read_m1_position_pid
    rw [(by decide : packBytes [cmdREADM1POSPID] = Except.ok [63])]
    simp only [hsend, hrecv, hunpack]
    norm_num

/-- Claim C8: an address outside `[0x80, 0x87]` passed to the constructor
raises `ValueError`, and passed as a per-call address makes `_send` fail
its assertion before any bytes are written (empty write trace) with no
retry; every address inside the range is accepted by both. -/
theorem address_range_contract :
    (∀ (a : Int) (r : Nat) (ps : Bool), ¬(0x80 ≤ a ∧ a < 0x88) →
       roboclawInit a r ps = .error .valueError) ∧
    (∀ (a : Int) (r : Nat) (ps : Bool), 0x80 ≤ a → a < 0x88 →
       roboclawInit a r ps = .ok ⟨a, r, ps⟩) ∧
    (∀ (s : Session) (buf : List Nat) (ack : Option Nat) (a : Int) (c : Bool)
       (st : SerialStream), ¬(0x80 ≤ a ∧ a < 0x88) →
       sendRC s buf ack (some a) c st = ⟨.error .assertionError, [], st⟩) ∧
    (∀ (s : Session) (buf : List Nat) (ack : Option Nat) (a : Int) (c : Bool)
       (st : SerialStream), 0x80 ≤ a → a < 0x88 →
       ∃ res, (sendRC s buf ack (some a) c st).result = .ok res) := by
  refine ⟨?_, ?_, ?_, ?_⟩
  · intro a r ps h
    unfold roboclawInit
    rw [if_neg h]
  · intro a r ps h1 h2
    unfold roboclawInit
    rw [if_pos ⟨h1, h2⟩]
  · intro s buf ack a c st h
    simp only [sendRC, h, if_false]
  · intro s buf ack a c st h1 h2
    have hcond : (0x80 ≤ a ∧ a < 0x88) = True := eq_true ⟨h1, h2⟩
    simp only [sendRC, hcond, if_true]
    exact ⟨_, rfl⟩

/-- Witness for C8: the contract applied at the out-of-range address
`0x79` and the in-range address `0x84`. -/
theorem address_range_contract_witness :
    roboclawInit 0x79 3 true = .error .valueError ∧
    roboclawInit 0x84 3 true = .ok ⟨0x84, 3, true⟩ ∧
    sendRC defaultSession [0] none (some 0x79) true [] =
      ⟨.error .assertionError, [], []⟩ ∧
    ∃ res, (sendRC defaultSession [0] none (some 0x84) true []).result =
      .ok res :=
  ⟨address_range_contract.1 0x79 3 true (by decide),
   address_range_contract.2.1 0x84 3 true (by decide) (by decide),
   address_range_contract.2.2.1 defaultSession [0] none 0x79 true []
     (by decide),
   address_range_contract.2.2.2 defaultSession [0] none 0x84 true []
     (by decide) (by decide)⟩

/-- Claim C9: when the `read_until` reply validates and carries a
nonempty payload, `read_version` returns the ASCII string of the payload
with the 2-byte checksum and the 2-byte line-feed-plus-null terminator
stripped; when the reply fails validation — including the empty read of a
silent device — it returns the distinguished string
`'Unknown. Read command failed'`; in all three cases it returns a value
rather than raising. -/
theorem read_version_tagged_result :
    (∀ (s : Session) (V : List Nat) (rest : SerialStream) (t : Nat),
       s.retries = t + 1 → validate16 V = true → V.dropLast.dropLast ≠ [] →
       (read_version s none (V :: rest)).ret =
         .ok (String.mk ((V.dropLast.dropLast.dropLast.dropLast).map
                Char.ofNat))) ∧
    (∀ (s : Session) (V : List Nat) (rest : SerialStream) (t : Nat),
       s.retries = t + 1 → validate16 V = false →
       (read_version s none (V :: rest)).ret =
         .ok "Unknown. Read command failed") ∧
    (∀ (s : Session) (t : Nat), s.retries = t + 1 →
       (read_version s none []).ret = .ok "Unknown. Read command failed") := by
  refine ⟨?_, ?_, ?_⟩
  · intro s V rest t hr hv hne
    obtain ⟨x, xs, hx⟩ : ∃ x xs, V.dropLast.dropLast = x :: xs := by
      cases h : V.dropLast.dropLast with
      | nil => exact absurd h hne
      | cons a l => exact ⟨a, l, rfl⟩
    unfold read_version
    simp only [(by decide : packBytes [cmdGETVERSION] = Except.ok [21]),
      sendRC_readUntil s [21] true V rest t hr, recvOfSend, recv, hv,
      if_true, hx]
  · intro s V rest t hr hv
    unfold read_version
    simp only [(by decide : packBytes [cmdGETVERSION] = Except.ok [21]),
      sendRC_readUntil s [21] true V rest t hr, recvOfSend, recv, hv]
    simp
  · intro s t hr
    unfold read_version
    simp only [(by decide : packBytes [cmdGETVERSION] = Except.ok [21]),
      sendRC_readUntil_nil s [21] true t hr, recvOfSend, recv]
    simp [validate16]

/-- Witness for C9: a validated reply carrying `"MCP"` plus terminator
yields `"MCP"`; a corrupted 7-byte reply and a silent device yield the
distinguished failure string. -/
theorem read_version_tagged_result_witness :
    defaultSession.retries = 2 + 1 ∧
    validate16 (verPayload ++ crcBytes verPayload) = true ∧
    (verPayload ++ crcBytes verPayload).dropLast.dropLast ≠ [] ∧
    (read_version defaultSession none [verPayload ++ crcBytes verPayload]).ret
      = .ok "MCP" ∧
    validate16 [1, 2, 3, 4, 5, 6, 7] = false ∧
    (read_version defaultSession none [[1, 2, 3, 4, 5, 6, 7]]).ret =
      .ok "Unknown. Read command failed" ∧
    (read_version defaultSession none []).ret =
      .ok "Unknown. Read command failed" :=
  ⟨rfl, by decide, by decide,
   by
     have h := read_version_tagged_result.1 defaultSession
       (verPayload ++ crcBytes verPayload) [] 2 rfl (by decide) (by decide)
     rw [h]; decide,
   by decide,
   read_version_tagged_result.2.1 defaultSession [1, 2, 3, 4, 5, 6, 7] [] 2
     rfl (by decide),
   read_version_tagged_result.2.2 defaultSession 2 rfl⟩
